import Mathlib

/-!
Verification of the liment menu-bar usage monitor (Rust sources) against its
natural-language specification.  Each Rust function relevant to a claim is
shallowly embedded as an executable Lean definition; machine floats (`f64`
utilization percentages) are modelled as exact rationals, timestamps as
integer seconds, and Rust `Option`/`Result` as Lean `Option`.
-/

namespace Liment

/-! ## Time formatting (src/utils/time.rs, `format_reset_time`)

The Rust function takes `resets_at` and reads the wall clock; both are second
counts (`Timestamp::as_second`).  It is embedded as a pure function of
`(resets_at, now)`.  The Rust `i64` divisions are only reached when the
difference is strictly positive, where they agree with natural division. -/

def format_reset_time (resets_at now : Int) : String :=
  let diff := resets_at - now
  if diff ≤ 0 then "now"
  else
    let d := diff.toNat
    let days := d / 86400
    let hours := d % 86400 / 3600
    let mins := d % 3600 / 60
    if days > 0 then toString days ++ "d " ++ toString hours ++ "h"
    else if hours > 0 then toString hours ++ "h " ++ toString mins ++ "m"
    else toString mins ++ "m"

/-- Claim C4: relative reset-time formatting is a pure function of
`(resets_at, now)`: it returns `"now"` whenever the reset is not strictly in
the future (including exactly now and the past), days+hours for a difference
of at least one day (`now + 2 days + 3 hours` gives `"2d 3h"`), hours+minutes
for at least one hour but under a day (`now + 90 minutes` gives `"1h 30m"`),
and minutes only otherwise. -/
theorem format_reset_time_spec (now : Int) :
    format_reset_time now now = "now" ∧
    (∀ p : Int, 0 < p → format_reset_time (now - p) now = "now") ∧
    format_reset_time (now + 90 * 60) now = "1h 30m" ∧
    format_reset_time (now + 2 * 86400 + 3 * 3600) now = "2d 3h" ∧
    (∀ d : Int, 86400 ≤ d → format_reset_time (now + d) now =
      toString (d.toNat / 86400) ++ "d " ++ toString (d.toNat % 86400 / 3600) ++ "h") ∧
    (∀ d : Int, 3600 ≤ d → d < 86400 → format_reset_time (now + d) now =
      toString (d.toNat / 3600) ++ "h " ++ toString (d.toNat % 3600 / 60) ++ "m") ∧
    (∀ d : Int, 0 < d → d < 3600 → format_reset_time (now + d) now =
      toString (d.toNat / 60) ++ "m") := by
  refine ⟨?_, ?_, ?_, ?_, ?_, ?_, ?_⟩
  · simp [format_reset_time]
  · intro p hp
    have h : now - p - now ≤ 0 := by omega
    simp only [format_reset_time, h, if_pos]
  · have h : now + 90 * 60 - now = 5400 := by ring
    simp only [format_reset_time, h]
    rfl
  · have h : now + 2 * 86400 + 3 * 3600 - now = 183600 := by ring
    simp only [format_reset_time, h]
    rfl
  · intro d hd
    have h : now + d - now = d := by ring
    have h1 : ¬(d ≤ 0) := by omega
    have h2 : 0 < d.toNat / 86400 := by
      have : 86400 ≤ d.toNat := by omega
      exact Nat.div_pos this (by norm_num)
    simp only [format_reset_time, h, if_neg h1, if_pos h2]
  · intro d hd1 hd2
    have h : now + d - now = d := by ring
    have h1 : ¬(d ≤ 0) := by omega
    have h2 : ¬(0 < d.toNat / 86400) := by
      have : d.toNat < 86400 := by omega
      simp [Nat.div_eq_of_lt this]
    have h3 : 0 < d.toNat % 86400 / 3600 := by
      have hlt : d.toNat < 86400 := by omega
      have hge : 3600 ≤ d.toNat := by omega
      rw [Nat.mod_eq_of_lt hlt]
      exact Nat.div_pos hge (by norm_num)
    have h4 : d.toNat % 86400 = d.toNat := Nat.mod_eq_of_lt (by omega)
    rw [h4] at h3
    simp only [format_reset_time, h, if_neg h1, if_neg h2, h4]
    rw [if_pos h3]
  · intro d hd1 hd2
    have h : now + d - now = d := by ring
    have h1 : ¬(d ≤ 0) := by omega
    have h2 : ¬(0 < d.toNat / 86400) := by
      have : d.toNat < 86400 := by omega
      simp [Nat.div_eq_of_lt this]
    have h3 : ¬(0 < d.toNat % 86400 / 3600) := by
      have hlt : d.toNat < 3600 := by omega
      rw [Nat.mod_eq_of_lt (by omega)]
      simp [Nat.div_eq_of_lt hlt]
    have h4 : d.toNat % 3600 = d.toNat := Nat.mod_eq_of_lt (by omega)
    simp only [format_reset_time, h, if_neg h1, if_neg h2, if_neg h3, h4]

/-- Claim C4 witness: concrete boundary inputs, evaluated. -/
theorem format_reset_time_spec_witness :
    format_reset_time 5400 0 = "1h 30m" ∧
    format_reset_time 183600 0 = "2d 3h" ∧
    format_reset_time (-7) 0 = "now" ∧
    format_reset_time 90000 0 = "1d 1h" ∧
    format_reset_time 120 0 = "2m" := by
  have h := format_reset_time_spec 0
  refine ⟨?_, ?_, ?_, ?_, ?_⟩
  · have := h.2.2.1; simpa using this
  · have := h.2.2.2.1; simpa using this
  · have := h.2.1 7 (by norm_num); simpa using this
  · have := h.2.2.2.2.1 90000 (by norm_num); simpa using this
  · have := h.2.2.2.2.2.2 120 (by norm_num) (by norm_num); simpa using this

/-! ## Usage model and normalization
(src/providers/mod.rs, src/providers/claude_code.rs)

`utilization` is an `f64` percentage in the source; it is modelled as an exact
rational.  Timestamps are second counts.  `UsageBucket.resets_at` is optional
in the API response (`Option<Timestamp>`); the normalized `UsageWindow` keeps
the non-optional `resets_at` of `src/providers/mod.rs`. -/

structure TierInfo where
  name : String
  color : Nat × Nat × Nat
deriving DecidableEq, Repr

inductive SubscriptionTier
  | Free
  | Pro
  | Max5x
  | Max20x
deriving DecidableEq, Repr

def SubscriptionTier.tier_info : SubscriptionTier → TierInfo
  | .Free => ⟨"Free", (140, 140, 155)⟩
  | .Pro => ⟨"Pro", (90, 145, 210)⟩
  | .Max5x => ⟨"Max 5x", (145, 110, 200)⟩
  | .Max20x => ⟨"Max 20x", (205, 130, 95)⟩

/-- The serde enum mapping of `SubscriptionTier` (the four `#[serde(rename)]`
strings); any other string fails deserialization, giving `none`. -/
def tier_from_string (s : String) : Option SubscriptionTier :=
  if s = "default_claude_free" then some .Free
  else if s = "default_claude_pro" then some .Pro
  else if s = "default_claude_max_5x" then some .Max5x
  else if s = "default_claude_max_20x" then some .Max20x
  else none

structure UsageBucket where
  utilization : ℚ
  resets_at : Option Int
deriving DecidableEq, Repr

structure ExtraUsage where
  is_enabled : Bool
  monthly_limit : ℚ
  used_credits : ℚ
deriving DecidableEq, Repr

structure UsageResponse where
  five_hour : Option UsageBucket
  seven_day : Option UsageBucket
  seven_day_sonnet : Option UsageBucket
  seven_day_opus : Option UsageBucket
  extra_usage : Option ExtraUsage
deriving DecidableEq, Repr

structure ProfileOrganization where
  rate_limit_tier : SubscriptionTier
deriving DecidableEq, Repr

structure ProfileResponse where
  organization : ProfileOrganization
deriving DecidableEq, Repr

structure ApiUsage where
  usage_usd : ℚ
  limit_usd : Option ℚ
deriving DecidableEq, Repr

structure UsageWindow where
  title : String
  short_title : Option String
  utilization : ℚ
  resets_at : Int
  period_seconds : Option Int
deriving DecidableEq, Repr

structure UsageData where
  account_tier : Option TierInfo
  api_usage : Option ApiUsage
  windows : List UsageWindow
deriving DecidableEq, Repr

/-- Embedding of `into_usage_data` (src/providers/claude_code.rs lines 89-126):
the per-bucket loop pushes a window only when the bucket is present *and* its
`resets_at` is present (`if let Some(resets_at) = b.resets_at`). -/
def into_usage_data (usage : UsageResponse) (profile : Option ProfileResponse) : UsageData :=
  let account_tier := profile.map (fun p => p.organization.rate_limit_tier.tier_info)
  let api_usage := usage.extra_usage.bind (fun extra =>
    if extra.is_enabled = false then none
    else some ⟨extra.used_credits / 100, some (extra.monthly_limit / 100)⟩)
  let buckets : List (String × Option String × Option UsageBucket × Int) :=
    [("5h Limit", some "5h", usage.five_hour, 5 * 3600),
     ("7d Limit", some "7d", usage.seven_day, 7 * 86400),
     ("7d Sonnet", none, usage.seven_day_sonnet, 7 * 86400),
     ("7d Opus", none, usage.seven_day_opus, 7 * 86400)]
  let windows := buckets.filterMap (fun b =>
    (b.2.2.1).bind (fun bk => bk.resets_at.map (fun r =>
      (⟨b.1, b.2.1, bk.utilization, r, some b.2.2.2⟩ : UsageWindow))))
  ⟨account_tier, api_usage, windows⟩

/-- Every window produced by normalization comes from one of the four raw
buckets, keeps that bucket's utilization value unchanged, and that bucket's
`resets_at` was present.  Shared by the C6 and C7 analyses. -/
theorem window_source (u : UsageResponse) (p : Option ProfileResponse)
    (w : UsageWindow) (hw : w ∈ (into_usage_data u p).windows) :
    ∃ b : UsageBucket,
      (u.five_hour = some b ∨ u.seven_day = some b ∨
        u.seven_day_sonnet = some b ∨ u.seven_day_opus = some b) ∧
      b.resets_at = some w.resets_at ∧ w.utilization = b.utilization := by
  simp only [into_usage_data, List.mem_filterMap, List.mem_cons,
    List.not_mem_nil, or_false] at hw
  obtain ⟨⟨t, st, ob, pd⟩, hmem, hval⟩ := hw
  rcases ob with _ | ⟨bu, br⟩
  · simp at hval
  · rcases br with _ | r
    · simp at hval
    · have hval' : w = ⟨t, st, bu, r, some pd⟩ := by simpa using hval.symm
      subst hval'
      refine ⟨⟨bu, some r⟩, ?_, rfl, rfl⟩
      rcases hmem with h | h | h | h <;>
        [exact Or.inl (congrArg (fun x => x.2.2.1) h).symm;
         exact Or.inr (Or.inl (congrArg (fun x => x.2.2.1) h).symm);
         exact Or.inr (Or.inr (Or.inl (congrArg (fun x => x.2.2.1) h).symm));
         exact Or.inr (Or.inr (Or.inr (congrArg (fun x => x.2.2.1) h).symm))]

/-- Concrete usage response with an out-of-range utilization of 150. -/
def overrange_response : UsageResponse := ⟨some ⟨150, some 0⟩, none, none, none, none⟩

/-- Claim C6 counterexample: normalizing a response whose raw utilization is
150 produces a `UsageWindow` whose utilization is still 150 — outside [0,100],
so no defensive clamping happens at the model boundary. -/
theorem into_usage_data_no_clamp :
    (into_usage_data overrange_response none).windows.map (fun w => w.utilization) = [150] ∧
    ¬ (∀ w ∈ (into_usage_data overrange_response none).windows,
        0 ≤ w.utilization ∧ w.utilization ≤ 100) := by
  constructor
  · rfl
  · intro hall
    have h := hall ⟨"5h Limit", some "5h", 150, 0, some 18000⟩ (by decide)
    have : ¬((150 : ℚ) ≤ 100) := by norm_num
    exact this h.2

/-- Claim C6 (amended): normalization copies each bucket's raw utilization
into the produced `UsageWindow` unchanged — no clamping is applied, so an
out-of-range raw value yields an out-of-range window value. -/
theorem into_usage_data_utilization_passthrough (u : UsageResponse)
    (p : Option ProfileResponse) (w : UsageWindow)
    (hw : w ∈ (into_usage_data u p).windows) :
    ∃ b : UsageBucket,
      (u.five_hour = some b ∨ u.seven_day = some b ∨
        u.seven_day_sonnet = some b ∨ u.seven_day_opus = some b) ∧
      w.utilization = b.utilization := by
  obtain ⟨b, hb, _, hu⟩ := window_source u p w hw
  exact ⟨b, hb, hu⟩

/-- Claim C6 witness: the pass-through theorem applied to the concrete
over-range response. -/
theorem into_usage_data_utilization_passthrough_witness :
    ∃ b : UsageBucket,
      (overrange_response.five_hour = some b ∨ overrange_response.seven_day = some b ∨
        overrange_response.seven_day_sonnet = some b ∨
        overrange_response.seven_day_opus = some b) ∧
      (⟨"5h Limit", some "5h", 150, 0, some 18000⟩ : UsageWindow).utilization = b.utilization :=
  into_usage_data_utilization_passthrough overrange_response none
    ⟨"5h Limit", some "5h", 150, 0, some 18000⟩ (by decide)

theorem length_filterMap_eq_countP {α β : Type} (f : α → Option β) (l : List α) :
    (l.filterMap f).length = l.countP (fun a => (f a).isSome) := by
  induction l with
  | nil => rfl
  | cons a l ih =>
    rw [List.filterMap_cons, List.countP_cons]
    cases h : f a <;> simp [h, ih]

theorem mk_window_isSome (t : String) (st : Option String) (ob : Option UsageBucket) (pd : Int) :
    ((ob.bind (fun bk => bk.resets_at.map (fun r =>
        (⟨t, st, bk.utilization, r, some pd⟩ : UsageWindow)))).isSome)
      = (ob.bind (fun b => b.resets_at)).isSome := by
  rcases ob with _ | ⟨bu, br⟩
  · rfl
  · rcases br with _ | r <;> rfl

/-- Concrete usage response whose five-hour bucket is present but carries no
`resets_at` timestamp. -/
def missing_reset_response : UsageResponse := ⟨some ⟨50, none⟩, none, none, none, none⟩

/-- Claim C7 counterexample: a bucket present in the API response whose
`resets_at` is absent is *not* normalized into a `UsageWindow` — the window
list comes out empty, so nothing is rendered for it. -/
theorem into_usage_data_drops_missing_reset :
    missing_reset_response.five_hour.isSome = true ∧
    (into_usage_data missing_reset_response none).windows = [] := ⟨rfl, rfl⟩

/-- Claim C7 (amended): normalization produces exactly one `UsageWindow` per
bucket that is present *and* has a `resets_at` timestamp; a present bucket
with an absent `resets_at` is dropped and therefore never rendered. -/
theorem into_usage_data_window_count (u : UsageResponse) (p : Option ProfileResponse) :
    (into_usage_data u p).windows.length =
      ([u.five_hour, u.seven_day, u.seven_day_sonnet, u.seven_day_opus].countP
        (fun ob => (ob.bind (fun b => b.resets_at)).isSome)) := by
  simp only [into_usage_data]
  rw [length_filterMap_eq_countP]
  simp [List.countP_cons, mk_window_isSome]

/-! ## Tier parsing and formatting
(src/providers/claude_code.rs `SubscriptionTier`, src/main.rs `format_tier`) -/

/-- Embedding of `format_tier` (src/main.rs lines 97-105): the wildcard arm
returns the raw tier string unchanged. -/
def format_tier (tier : String) : String :=
  if tier = "default_claude_free" then "Free"
  else if tier = "default_claude_pro" then "Pro"
  else if tier = "default_claude_max_5x" then "Max 5x"
  else if tier = "default_claude_max_20x" then "Max 20x"
  else tier

/-- Serde deserialization of a `ProfileResponse` as a function of the raw
`rate_limit_tier` string: an unknown tier string fails enum deserialization,
which `fetch_profile` converts to `none` via `.ok()`. -/
def parse_profile_response (tier_value : String) : Option ProfileResponse :=
  (tier_from_string tier_value).map (fun t => ⟨⟨t⟩⟩)

/-- Claim C9: an unknown `rate_limit_tier` string maps to a defined fallback
and never panics: deserialization yields `none` (so normalization omits the
tier, `account_tier = none`), and `format_tier` returns the raw string
unchanged.  All embedded functions are total. -/
theorem unknown_tier_fallback (s : String)
    (h : s ∉ ["default_claude_free", "default_claude_pro",
              "default_claude_max_5x", "default_claude_max_20x"]) :
    parse_profile_response s = none ∧
    format_tier s = s ∧
    ∀ u : UsageResponse, (into_usage_data u (parse_profile_response s)).account_tier = none := by
  simp only [List.mem_cons, List.not_mem_nil, or_false, not_or] at h
  obtain ⟨h1, h2, h3, h4⟩ := h
  have hp : parse_profile_response s = none := by
    simp [parse_profile_response, tier_from_string, h1, h2, h3, h4]
  refine ⟨hp, ?_, ?_⟩
  · simp [format_tier, h1, h2, h3, h4]
  · intro u
    simp [into_usage_data, hp]

/-- Claim C9 witness: the unknown tier string "enterprise" falls back. -/
theorem unknown_tier_fallback_witness :
    parse_profile_response "enterprise" = none ∧
    format_tier "enterprise" = "enterprise" ∧
    ∀ u : UsageResponse,
      (into_usage_data u (parse_profile_response "enterprise")).account_tier = none :=
  unknown_tier_fallback "enterprise" (by decide)

/-! ## Tray rendering (src/delegate.rs `rebuild_ui`, lines 192-231, and
src/views.rs `populate_menu`)

`rebuild_ui` receives `Option<UsageData>`: `None` is the failure path (tray
shows ` --` after each provider placeholder label), `Some` the success path
(two slots taken from the first two short-labelled windows, empty slots
filled with label `"--"` and value `0.0`).  The text of each tray line is
embedded exactly as the `format!` calls build it. -/

/-- Rust `f64 as u32` saturating cast on the rational model: truncation
toward zero, negatives to 0, capped at `u32::MAX`. -/
def ratToU32 (q : ℚ) : Nat := min q.floor.toNat 4294967295

/-- Decimal width of a tray value: `v.max(1).ilog10() as usize + 1`, i.e. the
number of decimal digits of `max v 1`, embedded as the length of its decimal
representation. -/
def digit_width (v : Nat) : Nat := (toString (max v 1)).length

/-- Right alignment `\x7b:>w$\x7d` of Rust `format!`: left-pad with spaces up
to width `w`. -/
def padLeft (s : String) (w : Nat) : String :=
  String.mk (List.replicate (w - s.length) ' ') ++ s

/-- One success tray line: `format!("\x7b\x7d \x7b:>w$\x7d%", label, v)`. -/
def tray_line (label : String) (v wd : Nat) : String :=
  label ++ " " ++ padLeft (toString v) wd ++ "%"

/-- The per-window display transform of the presentation layer
(`if is_remaining \x7b 100.0 - w.utilization \x7d else \x7b w.utilization \x7d`,
src/delegate.rs line 217 and src/views.rs line 36). -/
def display_percent (display_mode : String) (u : ℚ) : ℚ :=
  if display_mode == "remaining" then 100 - u else u

/-- The two tray slots of the success path as (label, value) pairs, before
line formatting (src/delegate.rs lines 211-225). -/
def tray_slots (data : UsageData) (display_mode : String) : (String × Nat) × (String × Nat) :=
  let tray_windows := data.windows.filter (fun w => w.short_title.isSome)
  let w0 := tray_windows.get? 0
  let w1 := tray_windows.get? 1
  let p0 := (w0.map (fun w => display_percent display_mode w.utilization)).getD 0
  let p1 := (w1.map (fun w => display_percent display_mode w.utilization)).getD 0
  let label0 := (w0.bind (fun w => w.short_title)).getD "--"
  let label1 := (w1.bind (fun w => w.short_title)).getD "--"
  ((label0, ratToU32 p0), (label1, ratToU32 p1))

/-- The two success tray lines (src/delegate.rs lines 220-227). -/
def tray_success_lines (data : UsageData) (display_mode : String) : String × String :=
  let s := tray_slots data display_mode
  let wd := max (digit_width s.1.2) (digit_width s.2.2)
  (tray_line s.1.1 s.1.2 wd, tray_line s.2.1 s.2.2 wd)

/-- The failure tray lines: `format!("\x7b\x7d --", ph[i])`
(src/delegate.rs lines 196-208). -/
def tray_failure_lines (ph0 ph1 : String) : String × String :=
  (ph0 ++ " --", ph1 ++ " --")

/-- Modelled from the spec: `UsageProvider::placeholder_lines` — the provider
trait carrying it is not among the sources (src/providers/mod.rs holds the
older `DataProvider` trait).  Per the spec's tray summary, the Claude Code
provider's two tray slots are its short window labels. -/
def placeholder_lines : String × String := ("5h", "7d")

/-- Dispatch of `rebuild_ui` on its `Option<UsageData>` argument. -/
def rebuild_ui_tray (data : Option UsageData) (display_mode : String)
    (ph : String × String) : String × String :=
  match data with
  | none => tray_failure_lines ph.1 ph.2
  | some d => tray_success_lines d display_mode

theorem data_append (a b : String) : (a ++ b).data = a.data ++ b.data := rfl

theorem failure_line_getLast (ph : String) :
    ((ph ++ " --").data).getLast? = some '-' := by
  have h : (ph ++ " --").data = (ph.data ++ [' ', '-']) ++ ['-'] := by
    rw [data_append]
    simp
  rw [h, List.getLast?_concat]

theorem tray_line_getLast (label : String) (v wd : Nat) :
    ((tray_line label v wd).data).getLast? = some '%' := by
  have h : (tray_line label v wd).data
      = (label ++ " " ++ padLeft (toString v) wd).data ++ ['%'] := rfl
  rw [h, List.getLast?_concat]

theorem failure_line_ne_tray_line (ph label : String) (v wd : Nat) :
    ph ++ " --" ≠ tray_line label v wd := by
  intro h
  have h2 : ((ph ++ " --").data).getLast? = ((tray_line label v wd).data).getLast? := by rw [h]
  rw [failure_line_getLast, tray_line_getLast] at h2
  simp at h2

/-- Claim C3: on a failed fetch the tray shows the fixed placeholder lines
`"5h --"` / `"7d --"` — each window slot carries the sentinel `--` and no
percent value (the lines contain no `%` character) — and no failure line can
ever equal a success line (every success line ends in `%`, every failure line
in `-`), in particular none produced by a 0%-utilization success. -/
theorem failure_render_distinguishable (d : UsageData) (display_mode : String) :
    rebuild_ui_tray none display_mode placeholder_lines = ("5h --", "7d --") ∧
    (∀ c ∈ ("5h --").data, c ≠ '%') ∧
    (∀ c ∈ ("7d --").data, c ≠ '%') ∧
    (∀ ph0 ph1 dm2,
      (rebuild_ui_tray none display_mode (ph0, ph1)).1 ≠
        (rebuild_ui_tray (some d) dm2 (ph0, ph1)).1 ∧
      (rebuild_ui_tray none display_mode (ph0, ph1)).2 ≠
        (rebuild_ui_tray (some d) dm2 (ph0, ph1)).2) := by
  refine ⟨rfl, by decide, by decide, ?_⟩
  intro ph0 ph1 dm2
  exact ⟨failure_line_ne_tray_line ph0 _ _ _, failure_line_ne_tray_line ph1 _ _ _⟩

/-- Claim C3 witness: the failure render differs from the all-zero success
render of a concrete snapshot. -/
theorem failure_render_distinguishable_witness :
    rebuild_ui_tray none "usage" placeholder_lines = ("5h --", "7d --") ∧
    (rebuild_ui_tray none "usage" ("5h", "7d")).1 ≠
      (rebuild_ui_tray (some ⟨none, none,
        [⟨"5h Limit", some "5h", 0, 0, some 18000⟩]⟩) "usage" ("5h", "7d")).1 := by
  have h := failure_render_distinguishable
    ⟨none, none, [⟨"5h Limit", some "5h", 0, 0, some 18000⟩]⟩ "usage"
  exact ⟨h.1, (h.2.2.2 "5h" "7d" "usage").1⟩

/-- Claim C10: on the success path the tray always fills two slots.  When
fewer than two windows carry a short label, each missing slot is rendered
with label `"--"` and numeric value 0, so the full empty render is
`("-- 0%", "-- 0%")`; a real 0%-utilization window differs from a filler
slot only by its label ("5h" vs "--"), not by its percentage (both 0). -/
theorem empty_slots_filled (data : UsageData) (display_mode : String) :
    (data.windows.filter (fun w => w.short_title.isSome) = [] →
      tray_slots data display_mode = (("--", 0), ("--", 0)) ∧
      tray_success_lines data display_mode = ("-- 0%", "-- 0%")) ∧
    (∀ w0, data.windows.filter (fun w => w.short_title.isSome) = [w0] →
      (tray_slots data display_mode).2 = ("--", 0)) ∧
    tray_slots ⟨none, none, [⟨"5h Limit", some "5h", 0, 0, some 18000⟩]⟩ "usage" =
      (("5h", 0), ("--", 0)) := by
  have hz : ratToU32 ((Option.map (fun w => display_percent display_mode w.utilization)
      (([] : List UsageWindow).get? 0)).getD 0) = 0 := rfl
  have hz1 : ratToU32 ((Option.map (fun w => display_percent display_mode w.utilization)
      (([] : List UsageWindow).get? 1)).getD 0) = 0 := rfl
  have hd : digit_width 0 = 1 := rfl
  have ht : tray_line "--" 0 1 = "-- 0%" := rfl
  refine ⟨?_, ?_, ?_⟩
  · intro h
    constructor
    · simp only [tray_slots, h]
      rw [hz, hz1]
      rfl
    · simp only [tray_success_lines, tray_slots, h]
      rw [hz, hz1, hd]
      simp only [max_self]
      rfl
  · intro w0 h
    simp only [tray_slots, h]
    have hz2 : ratToU32 ((Option.map (fun w => display_percent display_mode w.utilization)
        ([w0].get? 1)).getD 0) = 0 := rfl
    rw [hz2]
    rfl
  · rfl

/-- The per-row utilization values shown in the popup menu
(src/views.rs `populate_menu`, lines 32-46): one row per window, in order,
with the display-mode transform applied. -/
def menu_row_utils (data : UsageData) (display_mode : String) : List ℚ :=
  data.windows.map (fun w => display_percent display_mode w.utilization)

/-- Claim C5: the rendered percent of each window is its stored utilization
`u` under usage mode and `100 - u` under remaining mode; the transform is a
pure presentation-layer function (the embedding maps over `data.windows` and
returns a fresh list — the stored values are read, never written), and the
two modes agree on a window only when `u = 50`. -/
theorem display_mode_is_pure_transform (data : UsageData) :
    menu_row_utils data "usage" = data.windows.map (fun w => w.utilization) ∧
    menu_row_utils data "remaining" = data.windows.map (fun w => 100 - w.utilization) ∧
    (∀ u : ℚ, display_percent "usage" u = u) ∧
    (∀ u : ℚ, display_percent "remaining" u = 100 - u) ∧
    (∀ u : ℚ, display_percent "usage" u = display_percent "remaining" u ↔ u = 50) := by
  refine ⟨rfl, rfl, fun u => rfl, fun u => rfl, fun u => ?_⟩
  constructor
  · intro h
    have h2 : u = 100 - u := h
    linarith
  · intro h
    rw [h]
    norm_num [display_percent]

/-! ## Config watcher (src/watcher.rs `watch_config`, lines 34-70)

One iteration of the watcher thread's event loop, for one received event.
The `Config` type of that revision is not needed: the step is polymorphic in
it.  The closure's `?` early-returns become the error branches; an `Err`
result is only logged (`log::warn!`), the loop continues, and
`reload_config` is dispatched to the delegate only on a successful parse. -/

inductive WatchOutcome (C : Type) where
  | reload (c : C)
  | logged
  | skipped
deriving DecidableEq

/-- One event-loop iteration: `eventOk` is whether the notify event itself was
`Ok`, `contentChange` is `is_content_change(&event.kind)`, `debounced` is
`last_reload.elapsed() < 200ms`, `readResult` the config file read, `parse`
the TOML parse of its contents. -/
def watch_step {C : Type} (eventOk contentChange debounced : Bool)
    (readResult : Option String) (parse : String → Option C) : WatchOutcome C :=
  if eventOk = false then .logged
  else if contentChange = false then .skipped
  else if debounced = true then .skipped
  else
    match readResult with
    | none => .logged
    | some s =>
      match parse s with
      | none => .logged
      | some c => .reload c

/-- The delegate's active config after the watcher iteration: only a
`reload` outcome replaces it (`delegate.reload_config(new_config)`). -/
def apply_outcome {C : Type} (current : C) : WatchOutcome C → C
  | .reload c => c
  | .logged => current
  | .skipped => current

/-- Claim C8: when the watched config file changes and re-parsing the new
contents fails, the outcome is only a logged warning — `reload_config` is
never invoked, the previously active configuration stays in effect, and the
watcher loop (a total step function) continues rather than terminating the
process. -/
theorem parse_failure_keeps_config {C : Type} (current : C)
    (contents : String) (parse : String → Option C)
    (hparse : parse contents = none) :
    watch_step true true false (some contents) parse = .logged ∧
    apply_outcome current (watch_step true true false (some contents) parse) = current := by
  have hstep : watch_step true true false (some contents) parse
      = (.logged : WatchOutcome C) := by
    simp [watch_step, hparse]
  exact ⟨hstep, by rw [hstep]; rfl⟩

/-- Claim C8 witness: a concrete failed parse is only logged and the config
is kept. -/
theorem parse_failure_keeps_config_witness :
    watch_step true true false (some "oops") (fun _ => (none : Option Nat)) = .logged ∧
    apply_outcome 7 (watch_step true true false (some "oops")
      (fun _ => (none : Option Nat))) = 7 :=
  parse_failure_keeps_config 7 "oops" (fun _ => none) rfl

/-! ## Provider HTTP calls with 401 retry
(src/providers/claude_code.rs `get` lines 209-232, `get_inner` lines 234-245)

`get_inner` issues one HTTP request with the stored bearer token.  `get`
retries once after refreshing the token from the keychain, iff the first call
returned status 401 and `fetch_keychain_token()` succeeds; with any other
error, or when the keychain fails, the result is returned as-is via `.ok()`.
The HTTP transport is an oracle from (call number, bearer token) to a result,
the keychain an optional token.  The embedding returns what `get` returns
(`Option<String>` body), the token store contents afterwards, and how many
underlying HTTP requests were issued. -/

inductive HttpResult where
  | ok (body : String)
  | status (code : Nat)
  | transport
deriving DecidableEq

structure GetResult where
  body : Option String
  token : String
  calls : Nat
deriving DecidableEq

def get_inner (http : Nat → String → HttpResult) (idx : Nat) (token : String) : HttpResult :=
  http idx token

def provider_get (http : Nat → String → HttpResult) (keychain : Option String)
    (token : String) : GetResult :=
  match get_inner http 0 token with
  | .ok b => ⟨some b, token, 1⟩
  | .status c =>
    if c = 401 then
      match keychain with
      | some t2 =>
        match get_inner http 1 t2 with
        | .ok b => ⟨some b, t2, 2⟩
        | .status _ => ⟨none, t2, 2⟩
        | .transport => ⟨none, t2, 2⟩
      | none => ⟨none, token, 1⟩
    else ⟨none, token, 1⟩
  | .transport => ⟨none, token, 1⟩

/-- Claim C1 counterexample: with a transport that always answers 401 and a
keychain from which re-acquisition fails, the provider issues only ONE
underlying HTTP request and never retries — refuting "re-acquires the token
... exactly once and retries the failed call exactly once" (two requests) as
a universal statement; the failure is also reported as a bare `none`, with
no `AuthExpired` (or any other) classification in the code. -/
theorem get_401_keychain_failure_no_retry :
    provider_get (fun _ _ => .status 401) none "tok" = ⟨none, "tok", 1⟩ ∧
    (provider_get (fun _ _ => .status 401) none "tok").calls ≠ 2 := by
  constructor
  · rfl
  · intro h
    simp [provider_get, get_inner] at h

/-- Claim C1 (amended): on a 401 the provider attempts token re-acquisition
exactly once; when it succeeds the call is retried exactly once with the
refreshed token — at most two underlying HTTP requests are ever issued, and
exactly two iff the first call got a 401 and the keychain yielded a token —
and when the retry also fails, the fetch reports failure as `none`
(the code carries no `AuthExpired` classification; when re-acquisition
fails there is no retry at all). -/
theorem get_401_retry_bound (http : Nat → String → HttpResult)
    (keychain : Option String) (token : String) :
    (provider_get http keychain token).calls ≤ 2 ∧
    ((provider_get http keychain token).calls = 2 ↔
      http 0 token = .status 401 ∧ keychain.isSome = true) ∧
    (∀ t2, http 0 token = .status 401 → keychain = some t2 →
      (provider_get http keychain token).token = t2 ∧
      (provider_get http keychain token).body =
        (match http 1 t2 with
         | .ok b => some b
         | .status _ => none
         | .transport => none)) ∧
    (http 0 token = .status 401 → keychain = none →
      provider_get http keychain token = ⟨none, token, 1⟩) := by
  refine ⟨?_, ?_, ?_, ?_⟩
  · rcases h0 : http 0 token with b | c | _
    · simp [provider_get, get_inner, h0]
    · by_cases hc : c = 401
      · subst hc
        rcases keychain with _ | t2
        · simp [provider_get, get_inner, h0]
        · rcases h1 : http 1 t2 with b | c2 | _ <;> simp [provider_get, get_inner, h0, h1]
      · simp [provider_get, get_inner, h0, hc]
    · simp [provider_get, get_inner, h0]
  · rcases h0 : http 0 token with b | c | _
    · simp [provider_get, get_inner, h0]
    · by_cases hc : c = 401
      · subst hc
        rcases keychain with _ | t2
        · simp [provider_get, get_inner, h0]
        · rcases h1 : http 1 t2 with b | c2 | _ <;> simp [provider_get, get_inner, h0, h1]
      · simp [provider_get, get_inner, h0, hc]
    · simp [provider_get, get_inner, h0]
  · intro t2 h0 hk
    subst hk
    rcases h1 : http 1 t2 with b | c2 | _ <;> simp [provider_get, get_inner, h0, h1]
  · intro h0 hk
    subst hk
    simp [provider_get, get_inner, h0]

/-- Claim C1 witness: a transport that always answers 401 together with a
keychain that yields a fresh token makes exactly two HTTP calls, stores the
refreshed token, and reports failure as `none`. -/
theorem get_401_retry_bound_witness :
    (provider_get (fun _ _ => .status 401) (some "new") "old").calls = 2 ∧
    (provider_get (fun _ _ => .status 401) (some "new") "old").token = "new" ∧
    (provider_get (fun _ _ => .status 401) (some "new") "old").body = none := by
  have h := get_401_retry_bound (fun _ _ => .status 401) (some "new") "old"
  refine ⟨(h.2.1).mpr ⟨rfl, rfl⟩, (h.2.2.1 "new" rfl rfl).1, ?_⟩
  have hb := (h.2.2.1 "new" rfl rfl).2
  simpa using hb

/-! ## Refresh scheduling
(src/delegate.rs `refresh` lines 177-190, `on_timer`/`on_refresh` lines 64-85)

Every trigger source — startup (`applicationDidFinishLaunching`), the
periodic timer (`onTimer:`) and the menu's Refresh item (`onRefresh:`) —
calls `AppDelegate::refresh`, whose body unconditionally spawns a worker
thread running `provider.fetch_data()`; no flag records an in-flight fetch
and no trigger is ever dropped or queued.  The trace semantics below counts
in-flight fetches: a `trigger` event is one call to `refresh`, a `complete`
event the delivery of one spawned fetch's result. -/

inductive SchedEvent where
  | trigger
  | complete
deriving DecidableEq

/-- One event: `refresh` spawns a fetch on every call, so a trigger always
increments the number of in-flight fetches; a completion decrements it. -/
def refresh_step (inFlight : Nat) : SchedEvent → Nat
  | .trigger => inFlight + 1
  | .complete => inFlight - 1

def run_sched (inFlight : Nat) (events : List SchedEvent) : Nat :=
  events.foldl refresh_step inFlight

/-- Claim C2 counterexample: two manual-refresh triggers arriving while one
fetch is in flight leave three fetches running concurrently — the code does
start second and third concurrent fetches, while the claim allows at most
one in flight and at most one pending extra. -/
theorem triggers_spawn_concurrent_fetches :
    run_sched 1 [SchedEvent.trigger, SchedEvent.trigger] = 3 ∧
    ¬(run_sched 1 [SchedEvent.trigger, SchedEvent.trigger] ≤ 1) := by
  refine ⟨rfl, by decide⟩

/-- Claim C2 (amended): there is no coalescing — each of N triggers arriving
while a fetch is in flight immediately starts its own fetch, so the
scheduler does start N extra fetches: from k in-flight fetches, N triggers
leave k + N running concurrently. -/
theorem triggers_start_n_fetches (k n : Nat) :
    run_sched k (List.replicate n SchedEvent.trigger) = k + n := by
  induction n generalizing k with
  | zero => rfl
  | succ n ih =>
    have hstep : run_sched k (List.replicate (n + 1) SchedEvent.trigger)
        = run_sched (k + 1) (List.replicate n SchedEvent.trigger) := by
      rw [List.replicate_succ]
      rfl
    rw [hstep, ih]
    omega

end Liment
